import Mathlib

/-!
Verification of the `zampy` ERA5/ERA5-Land download and normalization pipeline
(`src/zampy/datasets/utils.py` and `src/zampy/datasets/era5.py`).

The source is shallowly embedded: timestamps become explicit calendar dates,
`pandas.date_range(freq="M")` becomes an executable month-end enumeration,
the CDS retrieval loop becomes a function producing the list of remote events
it would perform, and `parse_nc_file` acts on a list-based model of an
`xarray.Dataset`.  Collaborator modules that are not part of the sources
(`dataset_protocol`, `validation`, `converter`, `reference.variables`) are
modelled from the specification and are marked as such in their doc comments.
-/

/-- Calendar date (proleptic Gregorian), the granularity at which the
`numpy.datetime64` day-precision timestamps of `TimeBounds` are used. -/
structure Date where
  year : Nat
  month : Nat
  day : Nat
deriving DecidableEq

/-- Gregorian leap-year rule. -/
def isLeap (y : Nat) : Bool :=
  (y % 4 == 0 && y % 100 != 0) || y % 400 == 0

/-- Number of days of month `m` of year `y`. -/
def daysInMonth (y m : Nat) : Nat :=
  if m = 2 then (if isLeap y then 29 else 28)
  else if m = 4 ∨ m = 6 ∨ m = 9 ∨ m = 11 then 30
  else 31

/-- Chronological order on dates (lexicographic on year, month, day). -/
def Date.le (a b : Date) : Prop :=
  a.year < b.year ∨
    (a.year = b.year ∧ (a.month < b.month ∨ (a.month = b.month ∧ a.day ≤ b.day)))

/-- Strict chronological order on dates. -/
def Date.lt (a b : Date) : Prop :=
  a.year < b.year ∨
    (a.year = b.year ∧ (a.month < b.month ∨ (a.month = b.month ∧ a.day < b.day)))

instance (a b : Date) : Decidable (Date.le a b) := by
  unfold Date.le
  infer_instance

instance (a b : Date) : Decidable (Date.lt a b) := by
  unfold Date.lt
  infer_instance

/-- A date denotes an existing calendar day. -/
def ValidDate (d : Date) : Prop :=
  1 ≤ d.month ∧ d.month ≤ 12 ∧ 1 ≤ d.day ∧ d.day ≤ daysInMonth d.year d.month

instance (d : Date) : Decidable (ValidDate d) := by
  unfold ValidDate
  infer_instance

/-- `d` is the last calendar day of its month. -/
def isMonthEnd (d : Date) : Prop :=
  1 ≤ d.month ∧ d.month ≤ 12 ∧ d.day = daysInMonth d.year d.month

instance (d : Date) : Decidable (isMonthEnd d) := by
  unfold isMonthEnd
  infer_instance

/-- Linear month index: months since year 0, used to enumerate the months
touched by a time range. -/
def monthIdx (d : Date) : Nat :=
  d.year * 12 + (d.month - 1)

/-- The month-end date of the month with linear index `i`. -/
def monthEndOfIdx (i : Nat) : Date :=
  ⟨i / 12, i % 12 + 1, daysInMonth (i / 12) (i % 12 + 1)⟩

/-- Model of `pandas.date_range(start, end, freq="M")` (an external library
call): the chronologically ordered list of every month-end date `d` with
`start ≤ d ≤ end`. -/
def dateRangeM (s e : Date) : List Date :=
  ((List.range (monthIdx e + 1 - monthIdx s)).map
      (fun k => monthEndOfIdx (monthIdx s + k))).filter
    (fun d => decide (Date.le s d) && decide (Date.le d e))

/-- `zampy` time bounds object (`dataset_protocol.TimeBounds`, not under the
sources; per the spec it is a `(start, end)` timestamp pair with
invariant `start ≤ end`). -/
structure TimeBounds where
  start : Date
  «end» : Date
deriving DecidableEq

/-- Embedding of `time_bounds_to_year_month` (utils.py): sample the time
range at month ends and return the `(str(year), str(month))` pairs. -/
def time_bounds_to_year_month (tb : TimeBounds) : List (String × String) :=
  (dateRangeM tb.start tb.«end»).map (fun d => (Nat.repr d.year, Nat.repr d.month))

-- Small sanity checks that the embedding computes as the source does.
example : time_bounds_to_year_month ⟨⟨2010, 1, 1⟩, ⟨2010, 1, 31⟩⟩ = [("2010", "1")] := by
  decide

example : time_bounds_to_year_month ⟨⟨2009, 12, 15⟩, ⟨2010, 3, 10⟩⟩ =
    [("2009", "12"), ("2010", "1"), ("2010", "2")] := by
  decide

example : time_bounds_to_year_month ⟨⟨2010, 2, 1⟩, ⟨2010, 2, 27⟩⟩ = [] := by
  decide

lemma monthIdx_le_monthIdx {a b : Date} (ha1 : 1 ≤ a.month) (ha2 : a.month ≤ 12)
    (hb1 : 1 ≤ b.month) (hb2 : b.month ≤ 12) (h : Date.le a b) :
    monthIdx a ≤ monthIdx b := by
  unfold Date.le at h
  unfold monthIdx
  omega

lemma monthEndOfIdx_monthIdx {d : Date} (h : isMonthEnd d) :
    monthEndOfIdx (monthIdx d) = d := by
  obtain ⟨h1, h2, h3⟩ := h
  have hy : monthIdx d / 12 = d.year := by
    unfold monthIdx
    omega
  have hm : monthIdx d % 12 + 1 = d.month := by
    unfold monthIdx
    omega
  unfold monthEndOfIdx
  rw [hy, hm, ← h3]

lemma isMonthEnd_monthEndOfIdx (i : Nat) : isMonthEnd (monthEndOfIdx i) := by
  refine ⟨by simp [monthEndOfIdx], ?_, by simp [monthEndOfIdx]⟩
  have : i % 12 < 12 := Nat.mod_lt _ (by norm_num)
  simp only [monthEndOfIdx]
  omega

/-- Membership characterization of the month-end sampling: exactly the
month-end dates lying between `s` and `e` inclusive appear. -/
lemma mem_dateRangeM {s e : Date} (hs : ValidDate s) (he : ValidDate e) (d : Date) :
    d ∈ dateRangeM s e ↔ (isMonthEnd d ∧ Date.le s d ∧ Date.le d e) := by
  unfold dateRangeM
  simp only [List.mem_filter, List.mem_map, List.mem_range, Bool.and_eq_true,
    decide_eq_true_eq]
  constructor
  · rintro ⟨⟨k, hk, rfl⟩, hsd, hde⟩
    exact ⟨isMonthEnd_monthEndOfIdx _, hsd, hde⟩
  · rintro ⟨hme, hsd, hde⟩
    refine ⟨⟨monthIdx d - monthIdx s, ?_, ?_⟩, hsd, hde⟩
    · have h1 : monthIdx s ≤ monthIdx d :=
        monthIdx_le_monthIdx hs.1 hs.2.1 hme.1 hme.2.1 hsd
      have h2 : monthIdx d ≤ monthIdx e :=
        monthIdx_le_monthIdx hme.1 hme.2.1 he.1 he.2.1 hde
      omega
    · have h1 : monthIdx s ≤ monthIdx d :=
        monthIdx_le_monthIdx hs.1 hs.2.1 hme.1 hme.2.1 hsd
      have h2 : monthIdx s + (monthIdx d - monthIdx s) = monthIdx d := by omega
      rw [h2]
      exact monthEndOfIdx_monthIdx hme

lemma monthEndOfIdx_lt {i j : Nat} (h : i < j) :
    Date.lt (monthEndOfIdx i) (monthEndOfIdx j) := by
  unfold Date.lt monthEndOfIdx
  simp only
  omega

/-- The month-end sampling is chronologically sorted. -/
lemma pairwise_dateRangeM (s e : Date) :
    (dateRangeM s e).Pairwise Date.lt := by
  unfold dateRangeM
  apply List.Pairwise.filter
  apply List.Pairwise.map (R := fun a b : Nat => a < b)
  · intro a b hab
    exact monthEndOfIdx_lt (by omega)
  · exact List.pairwise_lt_range _

/-- A variable of a netCDF dataset: its name, its data values (modelled as
exact rationals, since the claims are about the arithmetic applied to them),
and its metadata attributes (an insertion-ordered key/value association
list, as a Python dict). -/
structure NCVar where
  name : String
  values : List ℚ
  attrs : List (String × String)
deriving DecidableEq

/-- Model of an `xarray.Dataset`: the list of its variables.  Variable names
are unique in an actual `xarray.Dataset`. -/
abbrev NCDataset := List NCVar

/-- Look an attribute up (Python `var.attrs[key]` read). -/
def getAttr (attrs : List (String × String)) (k : String) : Option String :=
  (attrs.find? (fun p => decide (p.1 = k))).map Prod.snd

/-- Order-preserving upsert (Python `var.attrs[key] = val`). -/
def setAttr (attrs : List (String × String)) (k val : String) :
    List (String × String) :=
  if attrs.any (fun p => decide (p.1 = k)) then
    attrs.map (fun p => if p.1 = k then (k, val) else p)
  else attrs ++ [(k, val)]

lemma comp_upsert_pred (k val : String) :
    ((fun p : String × String => decide (p.1 = k)) ∘
      (fun p : String × String => if p.1 = k then (k, val) else p)) =
    (fun p : String × String => decide (p.1 = k)) := by
  funext q
  by_cases h : q.1 = k <;> simp [h]

lemma comp_upsert_pred_ne (k val k2 : String) (h : k2 ≠ k) :
    ((fun p : String × String => decide (p.1 = k2)) ∘
      (fun p : String × String => if p.1 = k then (k, val) else p)) =
    (fun p : String × String => decide (p.1 = k2)) := by
  funext q
  by_cases hq : q.1 = k
  · simp [hq, Ne.symm h, h.symm]
  · simp [hq]

lemma getAttr_setAttr_same (attrs : List (String × String)) (k val : String) :
    getAttr (setAttr attrs k val) k = some val := by
  unfold getAttr setAttr
  by_cases hany : attrs.any (fun p => decide (p.1 = k))
  · rw [if_pos hany, List.find?_map, comp_upsert_pred]
    obtain ⟨x, hx, hpx⟩ := List.any_eq_true.mp hany
    cases hf : attrs.find? (fun p => decide (p.1 = k)) with
    | none =>
      exact absurd hpx (List.find?_eq_none.mp hf x hx)
    | some q =>
      have hq : q.1 = k := by simpa using List.find?_some hf
      simp [hq]
  · rw [if_neg hany, List.find?_append]
    have hnone : attrs.find? (fun p => decide (p.1 = k)) = none := by
      rw [List.find?_eq_none]
      intro x hx hpx
      exact hany (List.any_eq_true.mpr ⟨x, hx, hpx⟩)
    simp [hnone, List.find?]

lemma getAttr_setAttr_ne (attrs : List (String × String)) (k val k2 : String)
    (h : k2 ≠ k) : getAttr (setAttr attrs k val) k2 = getAttr attrs k2 := by
  unfold getAttr setAttr
  by_cases hany : attrs.any (fun p => decide (p.1 = k))
  · rw [if_pos hany, List.find?_map, comp_upsert_pred_ne k val k2 h]
    cases hf : attrs.find? (fun p => decide (p.1 = k2)) with
    | none => simp
    | some q =>
      have hq : q.1 = k2 := by simpa using List.find?_some hf
      have : q.1 ≠ k := hq ▸ h
      simp [this]
  · rw [if_neg hany, List.find?_append]
    have hsingle : List.find? (fun p => decide (p.1 = k2)) [(k, val)] = none := by
      simp [List.find?, Ne.symm h]
    rw [hsingle, Option.or_none]

/-- Embedding of the `var_reference_era5_to_zampy` dict (utils.py): raw
ERA5/ERA5-land variable codes mapped to canonical zampy names. -/
def var_reference_era5_to_zampy (s : String) : Option String :=
  if s = "mtpr" then some "total_precipitation"
  else if s = "strd" then some "surface_thermal_radiation_downwards"
  else if s = "ssrd" then some "surface_solar_radiation_downwards"
  else if s = "sp" then some "surface_pressure"
  else if s = "u10" then some "eastward_component_of_wind"
  else if s = "v10" then some "northward_component_of_wind"
  else if s = "t2m" then some "air_temperature"
  else if s = "d2m" then some "dewpoint_temperature"
  else none

/-- `WATER_DENSITY = 997.0  # kg/m3` (utils.py). -/
def WATER_DENSITY : ℚ := 997

/-- Entry of the variable registry: canonical unit and description. -/
structure VariableReference where
  unit : String
  desc : String
deriving DecidableEq

/-- Modelled from the spec: `VARIABLE_REFERENCE_LOOKUP`
(`zampy.reference.variables`, not under the sources) maps each canonical
variable name to its target unit and human description; per the spec the
precipitation target unit is millimeters/second and the radiation target
unit is watts per square meter.  Exact strings of the remaining entries are
not observable by any claim. -/
def VARIABLE_REFERENCE_LOOKUP (name : String) : VariableReference :=
  if name = "total_precipitation" then
    ⟨"millimeter_per_second", "Total precipitation rate"⟩
  else if name = "surface_thermal_radiation_downwards" then
    ⟨"watt_per_square_meter", "Downward thermal radiation at the surface"⟩
  else if name = "surface_solar_radiation_downwards" then
    ⟨"watt_per_square_meter", "Downward solar radiation at the surface"⟩
  else if name = "surface_pressure" then ⟨"pascal", "Surface pressure"⟩
  else if name = "eastward_component_of_wind" then
    ⟨"meter_per_second", "Eastward component of wind"⟩
  else if name = "northward_component_of_wind" then
    ⟨"meter_per_second", "Northward component of wind"⟩
  else if name = "air_temperature" then ⟨"kelvin", "Air temperature"⟩
  else if name = "dewpoint_temperature" then ⟨"kelvin", "Dewpoint temperature"⟩
  else ⟨"", ""⟩

/-- Modelled from the spec: the scale factor of the generic unit-conversion
step (`zampy.datasets.converter._convert_var`, not under the sources).  The
pipeline only ever converts meters/second to the registry's
millimeters/second precipitation unit; unexercised conversions are left as
the identity. -/
def conversionFactor (src dst : String) : ℚ :=
  if src = dst then 1
  else if src = "meter_per_second" ∧ dst = "millimeter_per_second" then 1000
  else 1

/-- Per-variable action of `ds.rename(a, b)`. -/
def renameVarF (a b : String) (v : NCVar) : NCVar :=
  if v.name = a then { v with name := b } else v

/-- `ds = ds.rename(a, b)` : change the name of the variable called `a`. -/
def renameVar (a b : String) (ds : NCDataset) : NCDataset :=
  ds.map (renameVarF a b)

/-- Per-variable action of `ds[n] = ds[n] / c`. -/
def divVarF (n : String) (c : ℚ) (v : NCVar) : NCVar :=
  if v.name = n then { v with values := v.values.map (fun x => x / c) } else v

/-- `ds[n] = ds[n] / c` : divide the values of the variable called `n`. -/
def divVar (n : String) (c : ℚ) (ds : NCDataset) : NCDataset :=
  ds.map (divVarF n c)

/-- Per-variable action of `ds[n].attrs[k] = val`. -/
def setVarAttrF (n k val : String) (v : NCVar) : NCVar :=
  if v.name = n then { v with attrs := setAttr v.attrs k val } else v

/-- `ds[n].attrs[k] = val` : upsert an attribute of the variable called `n`. -/
def setVarAttr (n k val : String) (ds : NCDataset) : NCDataset :=
  ds.map (setVarAttrF n k val)

/-- Per-variable action of the modelled `converter._convert_var`: rescale
the values of the variable called `n` from its current `units` attribute to
the target unit and record the target unit. -/
def convert_varF (n target : String) (v : NCVar) : NCVar :=
  if v.name = n then
    { v with
      values := v.values.map
        (fun x => x * conversionFactor ((getAttr v.attrs "units").getD "") target),
      attrs := setAttr v.attrs "units" target }
  else v

/-- Modelled from the spec: `converter._convert_var(ds, n, target)`
(not under the sources) converts the named variable to the target unit. -/
def convert_var (ds : NCDataset) (n target : String) : NCDataset :=
  ds.map (convert_varF n target)

/-- One iteration of the `for variable in ds.variables:` loop body of
`parse_nc_file` (utils.py), acting on the whole (rebound) dataset `acc`. -/
def parse_step (acc : NCDataset) (vcode : String) : NCDataset :=
  match var_reference_era5_to_zampy vcode with
  | none => acc
  | some variable_name =>
    let acc := renameVar vcode variable_name acc
    let acc :=
      if variable_name = "surface_solar_radiation_downwards" ∨
          variable_name = "surface_thermal_radiation_downwards" then
        divVar variable_name 3600 acc
      else if variable_name = "total_precipitation" then
        convert_var
          (setVarAttr variable_name "units" "meter_per_second"
            (divVar variable_name WATER_DENSITY acc))
          variable_name (VARIABLE_REFERENCE_LOOKUP variable_name).unit
      else acc
    setVarAttr variable_name "description"
      (VARIABLE_REFERENCE_LOOKUP variable_name).desc
      (setVarAttr variable_name "units"
        (VARIABLE_REFERENCE_LOOKUP variable_name).unit acc)

/-- Embedding of `parse_nc_file` (utils.py): iterate the loop body over the
variable names of the dataset as read from the file. -/
def parse_nc_file (ds : NCDataset) : NCDataset :=
  (ds.map NCVar.name).foldl parse_step ds

/-- The loop body restricted to a single variable record: `parse_step` acts
variable-wise (every dataset operation it performs is a per-variable map). -/
def parse_step_var (vcode : String) (v : NCVar) : NCVar :=
  match var_reference_era5_to_zampy vcode with
  | none => v
  | some variable_name =>
    let v := renameVarF vcode variable_name v
    let v :=
      if variable_name = "surface_solar_radiation_downwards" ∨
          variable_name = "surface_thermal_radiation_downwards" then
        divVarF variable_name 3600 v
      else if variable_name = "total_precipitation" then
        convert_varF variable_name (VARIABLE_REFERENCE_LOOKUP variable_name).unit
          (setVarAttrF variable_name "units" "meter_per_second"
            (divVarF variable_name WATER_DENSITY v))
      else v
    setVarAttrF variable_name "description"
      (VARIABLE_REFERENCE_LOOKUP variable_name).desc
      (setVarAttrF variable_name "units"
        (VARIABLE_REFERENCE_LOOKUP variable_name).unit v)

lemma parse_step_map (acc : NCDataset) (vcode : String) :
    parse_step acc vcode = acc.map (parse_step_var vcode) := by
  unfold parse_step parse_step_var
  cases hr : var_reference_era5_to_zampy vcode with
  | none => simp
  | some vn =>
    simp only
    split
    · simp [renameVar, divVar, setVarAttr, List.map_map]
    · split
      · simp [renameVar, divVar, setVarAttr, convert_var, List.map_map]
      · simp [renameVar, setVarAttr, List.map_map]

lemma foldl_map_comm {α σ : Type} (g : α → σ → σ) (ns : List α) (ds : List σ) :
    ns.foldl (fun acc n => acc.map (g n)) ds =
      ds.map (fun v => ns.foldl (fun v n => g n v) v) := by
  induction ns generalizing ds with
  | nil => simp
  | cons n ns ih =>
    simp only [List.foldl_cons]
    rw [ih, List.map_map]
    rfl

/-- `parse_nc_file` is the per-variable pipeline mapped over the dataset. -/
lemma parse_nc_file_eq_map (ds : NCDataset) :
    parse_nc_file ds =
      ds.map (fun v => (ds.map NCVar.name).foldl (fun v n => parse_step_var n v) v) := by
  unfold parse_nc_file
  rw [show parse_step = (fun acc n => acc.map (parse_step_var n)) by
    funext acc n
    exact parse_step_map acc n]
  exact foldl_map_comm _ _ _

lemma setVarAttrF_name (n k val : String) (v : NCVar) :
    (setVarAttrF n k val v).name = v.name := by
  unfold setVarAttrF
  split <;> rfl

lemma divVarF_name (n : String) (c : ℚ) (v : NCVar) :
    (divVarF n c v).name = v.name := by
  unfold divVarF
  split <;> rfl

lemma convert_varF_name (n target : String) (v : NCVar) :
    (convert_varF n target v).name = v.name := by
  unfold convert_varF
  split <;> rfl

/-- The name produced by the loop body: a registered raw code is renamed to
its canonical name, every other name is kept. -/
lemma parse_step_var_name (vcode : String) (v : NCVar) :
    (parse_step_var vcode v).name =
      match var_reference_era5_to_zampy vcode with
      | none => v.name
      | some vn => if v.name = vcode then vn else v.name := by
  cases hr : var_reference_era5_to_zampy vcode with
  | none => simp [parse_step_var, hr]
  | some vn =>
    simp only [parse_step_var, hr, setVarAttrF_name]
    have hname : ∀ w : NCVar,
        ((if vn = "surface_solar_radiation_downwards" ∨
              vn = "surface_thermal_radiation_downwards" then
            divVarF vn 3600 w
          else if vn = "total_precipitation" then
            convert_varF vn (VARIABLE_REFERENCE_LOOKUP vn).unit
              (setVarAttrF vn "units" "meter_per_second"
                (divVarF vn WATER_DENSITY w))
          else w)).name = w.name := by
      intro w
      split
      · exact divVarF_name _ _ _
      · split
        · rw [convert_varF_name, setVarAttrF_name, divVarF_name]
        · rfl
    rw [hname]
    unfold renameVarF
    split <;> simp

/-- Canonical names produced by the registry are themselves unregistered. -/
lemma reg_target_none {n vn : String}
    (h : var_reference_era5_to_zampy n = some vn) :
    var_reference_era5_to_zampy vn = none := by
  unfold var_reference_era5_to_zampy at h
  split_ifs at h <;> (injection h with h2 ; subst h2 ; rfl)

/-- After the whole loop, the name of every variable whose original name was
among the iterated names is unregistered. -/
lemma pipeline_name_none (ns : List String) (v : NCVar)
    (h : v.name ∈ ns ∨ var_reference_era5_to_zampy v.name = none) :
    var_reference_era5_to_zampy
      ((ns.foldl (fun v n => parse_step_var n v) v).name) = none := by
  induction ns generalizing v with
  | nil =>
    rcases h with h | h
    · exact absurd h (List.not_mem_nil _)
    · simpa using h
  | cons n ns ih =>
    simp only [List.foldl_cons]
    apply ih
    have hname := parse_step_var_name n v
    cases hr : var_reference_era5_to_zampy n with
    | none =>
      rw [hr] at hname
      simp only at hname
      rcases h with h | h
      · rcases List.mem_cons.mp h with heq | h2
        · exact Or.inr (by rw [hname, heq, hr])
        · exact Or.inl (by rw [hname] ; exact h2)
      · exact Or.inr (by rw [hname] ; exact h)
    | some vn =>
      rw [hr] at hname
      simp only at hname
      by_cases hv : v.name = n
      · rw [if_pos hv] at hname
        exact Or.inr (by rw [hname] ; exact reg_target_none hr)
      · rw [if_neg hv] at hname
        rcases h with h | h
        · rcases List.mem_cons.mp h with heq | h2
          · exact absurd heq hv
          · exact Or.inl (by rw [hname] ; exact h2)
        · exact Or.inr (by rw [hname] ; exact h)

/-- Iterating the loop body over unregistered names is the identity. -/
lemma foldl_parse_step_id (ns : List String) (ds : NCDataset)
    (h : ∀ n ∈ ns, var_reference_era5_to_zampy n = none) :
    ns.foldl parse_step ds = ds := by
  induction ns generalizing ds with
  | nil => rfl
  | cons n ns ih =>
    simp only [List.foldl_cons]
    have hstep : parse_step ds n = ds := by
      unfold parse_step
      rw [h n (List.mem_cons_self n ns)]
    rw [hstep]
    exact ih ds (fun m hm => h m (List.mem_cons_of_mem _ hm))

/-- A variable that is not registered, and is not the rename target of any
registered name, is left untouched by one loop iteration. -/
lemma parse_step_var_fix (n : String) (v : NCVar)
    (hv : var_reference_era5_to_zampy v.name = none)
    (hc : ∀ vn, var_reference_era5_to_zampy n = some vn → vn ≠ v.name) :
    parse_step_var n v = v := by
  cases hr : var_reference_era5_to_zampy n with
  | none => simp [parse_step_var, hr]
  | some vn =>
    have hvn : vn ≠ v.name := hc vn hr
    have hvne : v.name ≠ n := by
      intro heq
      rw [heq, hr] at hv
      exact Option.noConfusion hv
    simp only [parse_step_var, hr]
    rw [show renameVarF n vn v = v by unfold renameVarF ; rw [if_neg hvne]]
    have hmid :
        (if vn = "surface_solar_radiation_downwards" ∨
              vn = "surface_thermal_radiation_downwards" then
            divVarF vn 3600 v
          else if vn = "total_precipitation" then
            convert_varF vn (VARIABLE_REFERENCE_LOOKUP vn).unit
              (setVarAttrF vn "units" "meter_per_second"
                (divVarF vn WATER_DENSITY v))
          else v) = v := by
      have hdiv : divVarF vn WATER_DENSITY v = v := by
        unfold divVarF
        rw [if_neg (fun h => hvn h.symm)]
      split
      · unfold divVarF
        rw [if_neg (fun h => hvn h.symm)]
      · split
        · rw [hdiv]
          rw [show setVarAttrF vn "units" "meter_per_second" v = v by
            unfold setVarAttrF ; rw [if_neg (fun h => hvn h.symm)]]
          unfold convert_varF
          rw [if_neg (fun h => hvn h.symm)]
        · rfl
    rw [hmid]
    rw [show setVarAttrF vn "units" (VARIABLE_REFERENCE_LOOKUP vn).unit v = v by
      unfold setVarAttrF ; rw [if_neg (fun h => hvn h.symm)]]
    unfold setVarAttrF
    rw [if_neg (fun h => hvn h.symm)]

/-- A variable that is not registered, and never the rename target of an
iterated name, survives the whole loop untouched. -/
lemma pipeline_fix (ns : List String) (v : NCVar)
    (hv : var_reference_era5_to_zampy v.name = none)
    (hc : ∀ n ∈ ns, ∀ vn, var_reference_era5_to_zampy n = some vn → vn ≠ v.name) :
    ns.foldl (fun v n => parse_step_var n v) v = v := by
  induction ns with
  | nil => rfl
  | cons n ns ih =>
    simp only [List.foldl_cons]
    rw [parse_step_var_fix n v hv (hc n (List.mem_cons_self n ns))]
    exact ih (fun m hm => hc m (List.mem_cons_of_mem _ hm))

/-- `zampy` spatial bounds object.  Modelled from the spec:
`dataset_protocol.SpatialBounds` is not under the sources; per the spec its
scalars are `(north, east, south, west)` in that order. -/
structure SpatialBounds where
  north : ℚ
  east : ℚ
  south : ℚ
  west : ℚ
deriving DecidableEq

/-- Embedding of the `PRODUCT_FNAME` dict (utils.py). -/
def PRODUCT_FNAME (dataset : String) : Option String :=
  if dataset = "reanalysis-era5-single-levels" then some "era5"
  else if dataset = "reanalysis-era5-land" then some "era5-land"
  else none

/-- The fixed day enumeration of every CDS request (utils.py). -/
def CDS_DAYS : List String :=
  ["01", "02", "03", "04", "05", "06", "07", "08", "09", "10",
   "11", "12", "13", "14", "15", "16", "17", "18", "19", "20",
   "21", "22", "23", "24", "25", "26", "27", "28", "29", "30",
   "31"]

/-- The fixed hour enumeration of every CDS request (utils.py). -/
def CDS_TIMES : List String :=
  ["00:00", "01:00", "02:00", "03:00", "04:00", "05:00", "06:00",
   "07:00", "08:00", "09:00", "10:00", "11:00", "12:00", "13:00",
   "14:00", "15:00", "16:00", "17:00", "18:00", "19:00", "20:00",
   "21:00", "22:00", "23:00"]

/-- The request dict passed to `cdsapi.Client.retrieve` (utils.py). -/
structure CDSRequest where
  product_type : String
  «variable» : List String
  year : String
  month : String
  day : List String
  time : List String
  area : List ℚ
  format : String
deriving DecidableEq

/-- Remote/filesystem effects of the retrieval loop: a `c.retrieve` call
submitted to the CDS service, or an `r.download(fpath)` file transfer. -/
inductive CDSEvent where
  | retrieve (dataset : String) (request : CDSRequest)
  | download (fpath : String)
deriving DecidableEq

/-- Embedding of `get_file_size` (utils.py): `0` when the path does not
exist, the stored size otherwise.  The filesystem is a partial map from
paths to byte sizes. -/
def get_file_size (fs : String → Option Nat) (fpath : String) : Nat :=
  match fs fpath with
  | none => 0
  | some s => s

/-- The request built for one `(year, month)` pair and one variable
(utils.py, body of the retrieval loop): fixed product type, the CDS-side
variable name, the fixed day/hour enumerations, the area in
north/west/south/east order, and netcdf format. -/
def mkCDSRequest (cds_var_names : String → String) (sb : SpatialBounds)
    (vname : String) (ym : String × String) : CDSRequest :=
  { product_type := "reanalysis"
    «variable» := [cds_var_names vname]
    year := ym.1
    month := ym.2
    day := CDS_DAYS
    time := CDS_TIMES
    area := [sb.north, sb.west, sb.south, sb.east]
    format := "netcdf" }

/-- Target path `path / f"{fname}_{variable}_{year}-{month}.nc"` (utils.py). -/
def cdsFilePath (fname path vname : String) (ym : String × String) : String :=
  path ++ "/" ++ fname ++ "_" ++ vname ++ "_" ++ ym.1 ++ "-" ++ ym.2 ++ ".nc"

/-- Events of one iteration of the retrieval loop (utils.py): always submit
the retrieve request; then transfer the file unless an existing local file
has exactly the server-reported size and overwrite is off. -/
def cds_item_events (dataset fname path : String) (cds_var_names : String → String)
    (sb : SpatialBounds) (overwrite : Bool) (fs : String → Option Nat)
    (cl : CDSRequest → Nat) (ym : String × String) (vname : String) :
    List CDSEvent :=
  let r := mkCDSRequest cds_var_names sb vname ym
  let fpath := cdsFilePath fname path vname ym
  CDSEvent.retrieve dataset r ::
    (if get_file_size fs fpath ≠ cl r ∨ overwrite = true then
      [CDSEvent.download fpath]
    else [])

/-- The full event sequence of the retrieval loop of `cds_request`
(utils.py): the product of the chronological `(year, month)` pairs (outer)
and the variables in input order (inner). -/
def cds_events_core (dataset fname : String) (vars : List String)
    (tb : TimeBounds) (sb : SpatialBounds) (path : String)
    (cds_var_names : String → String) (overwrite : Bool)
    (fs : String → Option Nat) (cl : CDSRequest → Nat) : List CDSEvent :=
  (time_bounds_to_year_month tb).flatMap fun ym =>
    vars.flatMap fun vname =>
      cds_item_events dataset fname path cds_var_names sb overwrite fs cl ym vname

/-- Embedding of `cds_request` (utils.py) as the sequence of remote and
filesystem events it performs.  `none` models the `KeyError` of an unknown
dataset in `PRODUCT_FNAME`; the environment supplies the filesystem `fs` and
the server-reported content length `cl` of each retrieve result. -/
def cds_request_events (dataset : String) (vars : List String)
    (tb : TimeBounds) (sb : SpatialBounds) (path : String)
    (cds_var_names : String → String) (overwrite : Bool)
    (fs : String → Option Nat) (cl : CDSRequest → Nat) : Option (List CDSEvent) :=
  match PRODUCT_FNAME dataset with
  | none => none
  | some fname =>
      some (cds_events_core dataset fname vars tb sb path cds_var_names
        overwrite fs cl)

/-- `ERA5.name` (era5.py). -/
def ERA5_name : String := "era5"

/-- `ERA5.time_bounds` (era5.py): the declared temporal envelope. -/
def ERA5_time_bounds : TimeBounds := ⟨⟨1940, 1, 1⟩, ⟨2023, 6, 30⟩⟩

/-- `ERA5.spatial_bounds = SpatialBounds(90, 180, -90, -180)` (era5.py). -/
def ERA5_spatial_bounds : SpatialBounds := ⟨90, 180, -90, -180⟩

/-- `ERA5.variable_names` (era5.py). -/
def ERA5_variable_names : List String :=
  ["mean_total_precipitation_rate",
   "surface_thermal_radiation_downwards",
   "surface_solar_radiation_downwards",
   "surface_pressure",
   "10m_u_component_of_wind",
   "10m_v_component_of_wind"]

/-- Modelled from the spec: `validation.validate_download_request`
(`zampy.datasets.validation`, not under the sources) checks that the
requested time range, spatial bounds and variable names fall inside the
dataset's declared envelope, and raises before any network or filesystem
activity. -/
def validate_download_request (envTime : TimeBounds) (envSpace : SpatialBounds)
    (allowed : List String) (tb : TimeBounds) (sb : SpatialBounds)
    (variable_names : List String) : Except String Unit :=
  if ¬ (Date.le envTime.start tb.start ∧ Date.le tb.«end» envTime.«end» ∧
        Date.le tb.start tb.«end») then
    Except.error "time bounds outside dataset envelope"
  else if ¬ (sb.north ≤ envSpace.north ∧ envSpace.south ≤ sb.south ∧
        sb.east ≤ envSpace.east ∧ envSpace.west ≤ sb.west) then
    Except.error "spatial bounds outside dataset envelope"
  else if ¬ (∀ v ∈ variable_names, v ∈ allowed) then
    Except.error "variable name not provided by dataset"
  else Except.ok ()

/-- The parameter names of `def cds_request(...)` (utils.py), none of which
has a default value. -/
def cds_request_param_names : List String :=
  ["dataset", "variables", "time_bounds", "spatial_bounds", "path",
   "cds_var_names", "overwrite"]

/-- The keyword names used by the `utils.cds_request(...)` call inside
`ERA5.download` (era5.py): it passes `product=` and omits
`cds_var_names`. -/
def era5_cds_call_keywords : List String :=
  ["product", "variables", "time_bounds", "spatial_bounds", "path", "overwrite"]

/-- Python keyword binding for a call that passes only keyword arguments to
a function with no default values: every keyword must name a parameter and
every parameter must be bound, otherwise the call raises `TypeError`. -/
def keyword_call_binds (params keywords : List String) : Prop :=
  (∀ k ∈ keywords, k ∈ params) ∧ (∀ p ∈ params, p ∈ keywords)

instance (params keywords : List String) :
    Decidable (keyword_call_binds params keywords) := by
  unfold keyword_call_binds
  infer_instance

/-- Observable effects of `ERA5.download` (era5.py). -/
inductive FacadeEvent where
  | mkdir (path : String)
  | cds (e : CDSEvent)
  | writeProps (folder : String) (sb : SpatialBounds) (tb : TimeBounds)
      (variable_names : List String)
deriving DecidableEq

/-- The ways `ERA5.download` can raise. -/
inductive DownloadError where
  | validationError (msg : String)
  | typeError
  | keyError
deriving DecidableEq

/-- Embedding of `ERA5.download` (era5.py): validate, create the download
folder, call `utils.cds_request`, write the properties file, return `True`.
The result is the list of effects actually performed, paired with the
outcome.  The call to `utils.cds_request` at era5.py:76-83 binds the keyword
`product` (not `dataset`) and omits the required `cds_var_names` parameter
of utils.py:74-82, so in this version of the code the call raises
`TypeError` as soon as it is reached; the matching branch below keeps the
intended behaviour (delegation with the CDS-side names left as given, then
`write_properties_file`, modelled from the spec as a properties-record
event) and is unreachable while the signatures disagree. -/
def ERA5_download (download_dir : String) (tb : TimeBounds) (sb : SpatialBounds)
    (variable_names : List String) (overwrite : Bool)
    (fs : String → Option Nat) (cl : CDSRequest → Nat) :
    List FacadeEvent × Except DownloadError Bool :=
  match validate_download_request ERA5_time_bounds ERA5_spatial_bounds
      ERA5_variable_names tb sb variable_names with
  | Except.error msg => ([], Except.error (DownloadError.validationError msg))
  | Except.ok _ =>
    let download_folder := download_dir ++ "/" ++ ERA5_name
    if keyword_call_binds cds_request_param_names era5_cds_call_keywords then
      match cds_request_events "reanalysis-era5-single-levels" variable_names
          tb sb download_folder (fun v => v) overwrite fs cl with
      | none =>
          ([FacadeEvent.mkdir download_folder], Except.error DownloadError.keyError)
      | some tr =>
          (FacadeEvent.mkdir download_folder :: tr.map FacadeEvent.cds ++
            [FacadeEvent.writeProps download_folder sb tb variable_names],
           Except.ok true)
    else
      ([FacadeEvent.mkdir download_folder], Except.error DownloadError.typeError)

example : ¬ keyword_call_binds cds_request_param_names era5_cds_call_keywords := by
  decide

/-- Discriminator of retrieve events. -/
def isRetrieveEvent : CDSEvent → Bool := fun e =>
  match e with
  | CDSEvent.retrieve _ _ => true
  | CDSEvent.download _ => false

lemma filter_flatMap_comm {α β : Type} (l : List α) (f : α → List β)
    (p : β → Bool) :
    (l.flatMap f).filter p = l.flatMap fun a => (f a).filter p := by
  induction l with
  | nil => rfl
  | cons a l ih =>
    simp only [List.flatMap_cons, List.filter_append, ih]

lemma flatMap_singleton_eq_map {α β : Type} (l : List α) (f : α → β) :
    (l.flatMap fun a => [f a]) = l.map f := by
  induction l with
  | nil => rfl
  | cons a l ih =>
    simp only [List.flatMap_cons, List.map_cons, List.singleton_append, ih]

lemma length_flatMap_map {α β γ : Type} (l1 : List α) (l2 : List β)
    (f : α → β → γ) :
    (l1.flatMap fun a => l2.map (f a)).length = l1.length * l2.length := by
  induction l1 with
  | nil => simp
  | cons a l1 ih =>
    simp only [List.flatMap_cons, List.length_append, List.length_map,
      List.length_cons, ih]
    ring

lemma getElem?_flatMap_map {α β γ : Type} (l1 : List α) (l2 : List β)
    (f : α → β → γ) (i j : Nat) (hi : i < l1.length) (hj : j < l2.length) :
    (l1.flatMap fun a => l2.map (f a))[i * l2.length + j]? =
      some (f (l1.get ⟨i, hi⟩) (l2.get ⟨j, hj⟩)) := by
  induction l1 generalizing i with
  | nil => exact absurd hi (Nat.not_lt_zero _)
  | cons a l1 ih =>
    cases i with
    | zero =>
      simp only [List.flatMap_cons, Nat.zero_mul, Nat.zero_add]
      rw [List.getElem?_append, if_pos (by simpa using hj), List.getElem?_map,
        List.getElem?_eq_getElem hj]
      simp
    | succ i =>
      have hi2 : i < l1.length := Nat.lt_of_succ_lt_succ hi
      have hidx : (i + 1) * l2.length + j =
          (l2.map (f a)).length + (i * l2.length + j) := by
        simp only [List.length_map]
        ring
      simp only [List.flatMap_cons]
      rw [hidx, List.getElem?_append_right (Nat.le_add_right _ _),
        Nat.add_sub_cancel_left]
      rw [ih i hi2]
      simp

lemma cds_item_events_filter (dataset fname path : String)
    (cds_var_names : String → String) (sb : SpatialBounds) (overwrite : Bool)
    (fs : String → Option Nat) (cl : CDSRequest → Nat) (ym : String × String)
    (vname : String) :
    (cds_item_events dataset fname path cds_var_names sb overwrite fs cl
        ym vname).filter isRetrieveEvent =
      [CDSEvent.retrieve dataset (mkCDSRequest cds_var_names sb vname ym)] := by
  unfold cds_item_events
  dsimp only
  split <;> simp [isRetrieveEvent, List.filter]

/-- The subsequence of retrieve events of a full run: one per
`(year, month)` pair (outer) and variable (inner). -/
lemma retrieves_core_eq (dataset fname : String) (vars : List String)
    (tb : TimeBounds) (sb : SpatialBounds) (path : String)
    (cds_var_names : String → String) (overwrite : Bool)
    (fs : String → Option Nat) (cl : CDSRequest → Nat) :
    (cds_events_core dataset fname vars tb sb path cds_var_names overwrite
        fs cl).filter isRetrieveEvent =
      (time_bounds_to_year_month tb).flatMap fun ym =>
        vars.map fun vname =>
          CDSEvent.retrieve dataset (mkCDSRequest cds_var_names sb vname ym) := by
  unfold cds_events_core
  rw [filter_flatMap_comm]
  simp only [filter_flatMap_comm, cds_item_events_filter,
    flatMap_singleton_eq_map]

/-- C3: for every TimeBounds with valid dates, start ≤ end, spanning at
least one full month (some month end lies inside the range), the Request
Batcher `time_bounds_to_year_month` returns exactly one
`(str(year), str(month))` pair per calendar month-end boundary lying
between start and end inclusive — the sampled dates are exactly the
month-end dates of the range, without repetition and in chronological
order — and the range is nonempty. -/
theorem claim_c3_batcher (tb : TimeBounds) (hs : ValidDate tb.start)
    (he : ValidDate tb.«end») (hle : Date.le tb.start tb.«end»)
    (hspan : ∃ d, isMonthEnd d ∧ Date.le tb.start d ∧ Date.le d tb.«end») :
    time_bounds_to_year_month tb =
      (dateRangeM tb.start tb.«end»).map
        (fun d => (Nat.repr d.year, Nat.repr d.month)) ∧
    (∀ d, d ∈ dateRangeM tb.start tb.«end» ↔
      (isMonthEnd d ∧ Date.le tb.start d ∧ Date.le d tb.«end»)) ∧
    (dateRangeM tb.start tb.«end»).Pairwise Date.lt ∧
    dateRangeM tb.start tb.«end» ≠ [] := by
  refine ⟨rfl, fun d => mem_dateRangeM hs he d, pairwise_dateRangeM _ _, ?_⟩
  obtain ⟨d, hd⟩ := hspan
  have hmem := (mem_dateRangeM hs he d).mpr hd
  intro h0
  rw [h0] at hmem
  exact absurd hmem (List.not_mem_nil _)

/-- Witness for C3 at TimeBounds(2010-01-01, 2010-03-10). -/
theorem claim_c3_batcher_witness :
    Date.le (⟨2010, 1, 1⟩ : Date) ⟨2010, 3, 10⟩ ∧
    dateRangeM ⟨2010, 1, 1⟩ ⟨2010, 3, 10⟩ ≠ [] :=
  ⟨by decide,
    (claim_c3_batcher ⟨⟨2010, 1, 1⟩, ⟨2010, 3, 10⟩⟩ (by decide) (by decide)
      (by decide) ⟨⟨2010, 1, 31⟩, by decide, by decide, by decide⟩).2.2.2⟩

/-- C4: normalizing a file whose variable bears the raw code `mtpr` (total
precipitation, raw values in kg/m2/s) yields the canonical variable
`total_precipitation` whose values are `V / 997` further converted (times
1000) to the registry's millimeter-per-second unit, with the `units`
attribute set to the registry's unit string. -/
theorem claim_c4_precipitation (vs : List ℚ) (attrs : List (String × String)) :
    ∃ w : NCVar,
      parse_nc_file [⟨"mtpr", vs, attrs⟩] = [w] ∧
      w.name = "total_precipitation" ∧
      w.values = vs.map (fun x => x / 997 * 1000) ∧
      getAttr w.attrs "units" =
        some (VARIABLE_REFERENCE_LOOKUP "total_precipitation").unit ∧
      (VARIABLE_REFERENCE_LOOKUP "total_precipitation").unit =
        "millimeter_per_second" := by
  have h0 : parse_nc_file [⟨"mtpr", vs, attrs⟩] =
      parse_step [⟨"mtpr", vs, attrs⟩] "mtpr" := rfl
  rw [h0]
  unfold parse_step
  rw [show var_reference_era5_to_zampy "mtpr" = some "total_precipitation"
    from rfl]
  simp only [renameVar, renameVarF, divVar, divVarF, setVarAttr, setVarAttrF,
    convert_var, convert_varF, VARIABLE_REFERENCE_LOOKUP, List.map_cons,
    List.map_nil, String.reduceEq, reduceIte, getAttr_setAttr_same,
    Option.getD_some, WATER_DENSITY, conversionFactor, List.map_map,
    Function.comp, or_self, or_false, false_or]
  refine ⟨_, rfl, rfl, ?_, ?_, trivial⟩
  · rfl
  · rw [getAttr_setAttr_ne _ _ _ _ (by decide), getAttr_setAttr_same]

/-- C5: normalizing a file whose variable bears the raw code `ssrd` or
`strd` (the two radiation codes) yields the corresponding canonical
variable with values `V / 3600` and the `units` attribute set to the
registry's watt-per-square-meter unit string. -/
theorem claim_c5_radiation (vs : List ℚ) (attrs : List (String × String)) :
    (∃ w : NCVar,
      parse_nc_file [⟨"ssrd", vs, attrs⟩] = [w] ∧
      w.name = "surface_solar_radiation_downwards" ∧
      w.values = vs.map (fun x => x / 3600) ∧
      getAttr w.attrs "units" =
        some (VARIABLE_REFERENCE_LOOKUP "surface_solar_radiation_downwards").unit) ∧
    (∃ w : NCVar,
      parse_nc_file [⟨"strd", vs, attrs⟩] = [w] ∧
      w.name = "surface_thermal_radiation_downwards" ∧
      w.values = vs.map (fun x => x / 3600) ∧
      getAttr w.attrs "units" =
        some (VARIABLE_REFERENCE_LOOKUP "surface_thermal_radiation_downwards").unit) ∧
    (VARIABLE_REFERENCE_LOOKUP "surface_solar_radiation_downwards").unit =
      "watt_per_square_meter" ∧
    (VARIABLE_REFERENCE_LOOKUP "surface_thermal_radiation_downwards").unit =
      "watt_per_square_meter" := by
  refine ⟨?_, ?_, rfl, rfl⟩
  · have h0 : parse_nc_file [⟨"ssrd", vs, attrs⟩] =
        parse_step [⟨"ssrd", vs, attrs⟩] "ssrd" := rfl
    rw [h0]
    unfold parse_step
    rw [show var_reference_era5_to_zampy "ssrd" =
      some "surface_solar_radiation_downwards" from rfl]
    simp only [renameVar, renameVarF, divVar, divVarF, setVarAttr, setVarAttrF,
      VARIABLE_REFERENCE_LOOKUP, List.map_cons, List.map_nil, String.reduceEq,
      reduceIte, or_self, or_false, false_or, true_or, or_true]
    refine ⟨_, rfl, rfl, rfl, ?_⟩
    rw [getAttr_setAttr_ne _ _ _ _ (by decide), getAttr_setAttr_same]
  · have h0 : parse_nc_file [⟨"strd", vs, attrs⟩] =
        parse_step [⟨"strd", vs, attrs⟩] "strd" := rfl
    rw [h0]
    unfold parse_step
    rw [show var_reference_era5_to_zampy "strd" =
      some "surface_thermal_radiation_downwards" from rfl]
    simp only [renameVar, renameVarF, divVar, divVarF, setVarAttr, setVarAttrF,
      VARIABLE_REFERENCE_LOOKUP, List.map_cons, List.map_nil, String.reduceEq,
      reduceIte, or_self, or_false, false_or, true_or, or_true]
    refine ⟨_, rfl, rfl, rfl, ?_⟩
    rw [getAttr_setAttr_ne _ _ _ _ (by decide), getAttr_setAttr_same]

/-- C6: a variable of the input file whose name has no registry entry — and
whose name no registered variable of the file is renamed to, which is
xarray's precondition for the renames to succeed at all — passes through
`parse_nc_file` entirely unchanged: same name, same values, same metadata
attributes, at the same position. -/
theorem claim_c6_unregistered_unchanged (ds : NCDataset) (i : Nat)
    (hi : i < ds.length)
    (hname : var_reference_era5_to_zampy (ds.get ⟨i, hi⟩).name = none)
    (hcol : ∀ n ∈ ds.map NCVar.name, ∀ vn,
      var_reference_era5_to_zampy n = some vn → vn ≠ (ds.get ⟨i, hi⟩).name) :
    ∃ hi2 : i < (parse_nc_file ds).length,
      (parse_nc_file ds).get ⟨i, hi2⟩ = ds.get ⟨i, hi⟩ := by
  have hmap := parse_nc_file_eq_map ds
  have hlen : (parse_nc_file ds).length = ds.length := by
    rw [hmap, List.length_map]
  refine ⟨by rw [hlen] ; exact hi, ?_⟩
  have hget : (parse_nc_file ds).get ⟨i, by rw [hlen] ; exact hi⟩ =
      (ds.map NCVar.name).foldl (fun v n => parse_step_var n v) (ds.get ⟨i, hi⟩) := by
    simp only [hmap, List.get_eq_getElem, List.getElem_map]
  rw [hget]
  exact pipeline_fix _ _ hname hcol

/-- Witness for C6: a dataset with the single unregistered variable `foo`. -/
theorem claim_c6_unregistered_unchanged_witness :
    ∃ hi2 : 0 < (parse_nc_file [⟨"foo", [(1 : ℚ)], [("units", "u")]⟩]).length,
      (parse_nc_file [⟨"foo", [(1 : ℚ)], [("units", "u")]⟩]).get ⟨0, hi2⟩ =
        ([⟨"foo", [(1 : ℚ)], [("units", "u")]⟩] : NCDataset).get ⟨0, by decide⟩ :=
  claim_c6_unregistered_unchanged [⟨"foo", [(1 : ℚ)], [("units", "u")]⟩] 0
    (by decide) (by decide)
    (by
      intro n hn vn hvn
      simp only [List.map_cons, List.map_nil, List.mem_singleton] at hn
      subst hn
      rw [show var_reference_era5_to_zampy "foo" = none from rfl] at hvn
      exact Option.noConfusion hvn)

/-- C7: normalization is idempotent — applying `parse_nc_file` to the
output of `parse_nc_file` returns that output unchanged, for every input
dataset: after the first pass every variable name is outside the raw-code
registry, so the second pass performs no rename, rescale or attribute
change. -/
theorem claim_c7_idempotent (ds : NCDataset) :
    parse_nc_file (parse_nc_file ds) = parse_nc_file ds := by
  have hnames : ∀ n ∈ (parse_nc_file ds).map NCVar.name,
      var_reference_era5_to_zampy n = none := by
    intro n hn
    rw [parse_nc_file_eq_map ds] at hn
    simp only [List.map_map, List.mem_map, Function.comp] at hn
    obtain ⟨v, hv, rfl⟩ := hn
    exact pipeline_name_none _ v (Or.inl (List.mem_map_of_mem NCVar.name hv))
  unfold parse_nc_file
  exact foldl_parse_step_id _ _ hnames

/-- C1 counterexample: with `overwrite=False` and a local file whose size
(42) equals the server-reported content length (42), the run still contains
exactly one retrieve call for the item — the claim's "zero remote retrieval
calls" is false; only the file transfer is absent. -/
theorem claim_c1_counterexample :
    cds_request_events "reanalysis-era5-single-levels" ["sp"]
        ⟨⟨2010, 1, 1⟩, ⟨2010, 1, 31⟩⟩ ⟨54, 56, 1, 3⟩ "d" (fun v => v) false
        (fun p => if p = "d/era5_sp_2010-1.nc" then some 42 else none)
        (fun _ => 42) =
      some [CDSEvent.retrieve "reanalysis-era5-single-levels"
        (mkCDSRequest (fun v => v) ⟨54, 56, 1, 3⟩ "sp" ("2010", "1"))] := by
  decide

/-- C1 (amended): for every item, when `overwrite=False` and an existing
local file's size equals the server-reported content length, the loop
issues the retrieve request but no download (file transfer) for that file;
when `overwrite=True` it issues exactly one retrieve and one download for
the item, regardless of any existing file's size. -/
theorem claim_c1_skip_policy (dataset fname path : String)
    (cvn : String → String) (sb : SpatialBounds) (fs : String → Option Nat)
    (cl : CDSRequest → Nat) (ym : String × String) (vname : String) :
    (get_file_size fs (cdsFilePath fname path vname ym) =
        cl (mkCDSRequest cvn sb vname ym) →
      cds_item_events dataset fname path cvn sb false fs cl ym vname =
        [CDSEvent.retrieve dataset (mkCDSRequest cvn sb vname ym)]) ∧
    cds_item_events dataset fname path cvn sb true fs cl ym vname =
      [CDSEvent.retrieve dataset (mkCDSRequest cvn sb vname ym),
       CDSEvent.download (cdsFilePath fname path vname ym)] := by
  constructor
  · intro h
    unfold cds_item_events
    dsimp only
    rw [if_neg (by simp [h])]
  · unfold cds_item_events
    dsimp only
    rw [if_pos (Or.inr rfl)]

/-- Witness for C1 (amended) at a concrete item whose sizes agree. -/
theorem claim_c1_skip_policy_witness :
    cds_item_events "reanalysis-era5-single-levels" "era5" "d" (fun v => v)
        ⟨54, 56, 1, 3⟩ false
        (fun p => if p = "d/era5_sp_2010-1.nc" then some 42 else none)
        (fun _ => 42) ("2010", "1") "sp" =
      [CDSEvent.retrieve "reanalysis-era5-single-levels"
        (mkCDSRequest (fun v => v) ⟨54, 56, 1, 3⟩ "sp" ("2010", "1"))] :=
  (claim_c1_skip_policy "reanalysis-era5-single-levels" "era5" "d"
    (fun v => v) ⟨54, 56, 1, 3⟩
    (fun p => if p = "d/era5_sp_2010-1.nc" then some 42 else none)
    (fun _ => 42) ("2010", "1") "sp").1 (by decide)

/-- C9: the retrieval loop is deterministic in its inputs and issues exactly
one retrieve request per (year, month) pair and variable: the retrieve
subsequence of the event trace has length `pairs × variables` and its entry
at position `i * |variables| + j` is the request for the i-th chronological
pair and the j-th input variable (outer loop over pairs, inner loop over
variables). -/
theorem claim_c9_deterministic_order (dataset : String) (vars : List String)
    (tb : TimeBounds) (sb : SpatialBounds) (path : String)
    (cvn : String → String) (overwrite : Bool) (fs : String → Option Nat)
    (cl : CDSRequest → Nat) (tr : List CDSEvent)
    (h : cds_request_events dataset vars tb sb path cvn overwrite fs cl =
      some tr) :
    (tr.filter isRetrieveEvent).length =
      (time_bounds_to_year_month tb).length * vars.length ∧
    ∀ i j, (hi : i < (time_bounds_to_year_month tb).length) →
      (hj : j < vars.length) →
      (tr.filter isRetrieveEvent)[i * vars.length + j]? =
        some (CDSEvent.retrieve dataset
          (mkCDSRequest cvn sb (vars.get ⟨j, hj⟩)
            ((time_bounds_to_year_month tb).get ⟨i, hi⟩))) := by
  cases hp : PRODUCT_FNAME dataset with
  | none =>
    rw [cds_request_events, hp] at h
    exact Option.noConfusion h
  | some fname =>
    rw [cds_request_events, hp] at h
    have htr : tr = cds_events_core dataset fname vars tb sb path cvn
        overwrite fs cl := (Option.some.inj h).symm
    subst htr
    rw [retrieves_core_eq]
    constructor
    · exact length_flatMap_map _ _ _
    · intro i j hi hj
      exact getElem?_flatMap_map _ _ _ i j hi hj

/-- Witness for C9 at a one-pair, one-variable run. -/
theorem claim_c9_deterministic_order_witness :
    cds_request_events "reanalysis-era5-land" ["t2m"]
        ⟨⟨2010, 1, 1⟩, ⟨2010, 1, 31⟩⟩ ⟨54, 56, 1, 3⟩ "d" (fun v => v) false
        (fun _ => none) (fun _ => 5) =
      some [CDSEvent.retrieve "reanalysis-era5-land"
              (mkCDSRequest (fun v => v) ⟨54, 56, 1, 3⟩ "t2m" ("2010", "1")),
            CDSEvent.download "d/era5-land_t2m_2010-1.nc"] ∧
    (([CDSEvent.retrieve "reanalysis-era5-land"
          (mkCDSRequest (fun v => v) ⟨54, 56, 1, 3⟩ "t2m" ("2010", "1")),
        CDSEvent.download "d/era5-land_t2m_2010-1.nc"].filter
          isRetrieveEvent).length =
      (time_bounds_to_year_month ⟨⟨2010, 1, 1⟩, ⟨2010, 1, 31⟩⟩).length * 1) :=
  ⟨by decide,
    (claim_c9_deterministic_order "reanalysis-era5-land" ["t2m"]
      ⟨⟨2010, 1, 1⟩, ⟨2010, 1, 31⟩⟩ ⟨54, 56, 1, 3⟩ "d" (fun v => v) false
      (fun _ => none) (fun _ => 5) _ (by decide)).1⟩

/-- C10: when no local file exists at an item's target path
(`get_file_size` returns 0) and the server reports content length 0 for
every request that would be saved there, then with `overwrite=False` the
skip-by-size check treats the sizes as equal and no download event for that
path ever occurs — the skip condition fires although no local file
exists. -/
theorem claim_c10_skip_nonexistent (dataset fname path : String)
    (cvn : String → String) (sb : SpatialBounds) (vars : List String)
    (tb : TimeBounds) (fs : String → Option Nat) (cl : CDSRequest → Nat)
    (p : String) (hp : fs p = none)
    (hcl : ∀ ym ∈ time_bounds_to_year_month tb, ∀ v ∈ vars,
      cdsFilePath fname path v ym = p →
        cl (mkCDSRequest cvn sb v ym) = 0) :
    get_file_size fs p = 0 ∧
    CDSEvent.download p ∉
      cds_events_core dataset fname vars tb sb path cvn false fs cl := by
  have hsize : get_file_size fs p = 0 := by
    unfold get_file_size
    rw [hp]
  refine ⟨hsize, ?_⟩
  intro hmem
  unfold cds_events_core at hmem
  rw [List.mem_flatMap] at hmem
  obtain ⟨ym, hym, hmem⟩ := hmem
  rw [List.mem_flatMap] at hmem
  obtain ⟨v, hv, hmem⟩ := hmem
  unfold cds_item_events at hmem
  dsimp only at hmem
  rcases List.mem_cons.mp hmem with heq | hmem2
  · exact CDSEvent.noConfusion heq
  · by_cases hc : get_file_size fs (cdsFilePath fname path v ym) ≠
        cl (mkCDSRequest cvn sb v ym) ∨ false = true
    · rw [if_pos hc] at hmem2
      have hpath : cdsFilePath fname path v ym = p := by
        rcases List.mem_singleton.mp hmem2 with heq2
        exact (CDSEvent.download.inj heq2).symm
      rcases hc with hc | hc
      · apply hc
        rw [hpath, hsize, hcl ym hym v hv hpath]
      · exact Bool.noConfusion hc
    · rw [if_neg hc] at hmem2
      exact absurd hmem2 (List.not_mem_nil _)

/-- Witness for C10 at a concrete run with an empty filesystem and a server
reporting zero content length. -/
theorem claim_c10_skip_nonexistent_witness :
    get_file_size (fun _ => none) "d/era5_sp_2010-1.nc" = 0 ∧
    CDSEvent.download "d/era5_sp_2010-1.nc" ∉
      cds_events_core "reanalysis-era5-single-levels" "era5" ["sp"]
        ⟨⟨2010, 1, 1⟩, ⟨2010, 1, 31⟩⟩ ⟨54, 56, 1, 3⟩ "d" (fun v => v) false
        (fun _ => none) (fun _ => 0) :=
  claim_c10_skip_nonexistent "reanalysis-era5-single-levels" "era5" "d"
    (fun v => v) ⟨54, 56, 1, 3⟩ ["sp"] ⟨⟨2010, 1, 1⟩, ⟨2010, 1, 31⟩⟩
    (fun _ => none) (fun _ => 0) "d/era5_sp_2010-1.nc" rfl (by decide)

/-- C2: evaluating the Dataset Facade at the end-to-end scenario
(TimeBounds(2010-01-01, 2010-01-31), one recognized variable, spatial box
(54, 56, 1, 3)).  Validation passes and the download folder is created, but
the facade's call to `cds_request` raises `TypeError` (it binds the keyword
`product` instead of `dataset` and omits the required `cds_var_names`
parameter), so no retrieve request is issued and no properties file is
written — contrary to the claim's one retrieve call and properties
record. -/
theorem claim_c2_facade_crashes :
    ERA5_download "download" ⟨⟨2010, 1, 1⟩, ⟨2010, 1, 31⟩⟩ ⟨54, 56, 1, 3⟩
        ["surface_pressure"] false (fun _ => none) (fun _ => 0) =
      ([FacadeEvent.mkdir "download/era5"],
        Except.error DownloadError.typeError) := by
  rfl

/-- C8: a download request whose time range, spatial bounds or variable
names fall outside the ERA5 dataset's declared envelope fails validation
first: the facade performs no effect at all (no directory creation, no
network activity, no properties file) and returns the validation error —
never a success result. -/
theorem claim_c8_validation_first (download_dir : String) (tb : TimeBounds)
    (sb : SpatialBounds) (vars : List String) (overwrite : Bool)
    (fs : String → Option Nat) (cl : CDSRequest → Nat) (msg : String)
    (h : validate_download_request ERA5_time_bounds ERA5_spatial_bounds
      ERA5_variable_names tb sb vars = Except.error msg) :
    ERA5_download download_dir tb sb vars overwrite fs cl =
      ([], Except.error (DownloadError.validationError msg)) ∧
    ∀ b : Bool,
      (ERA5_download download_dir tb sb vars overwrite fs cl).2 ≠
        Except.ok b := by
  have h1 : ERA5_download download_dir tb sb vars overwrite fs cl =
      ([], Except.error (DownloadError.validationError msg)) := by
    unfold ERA5_download
    rw [h]
  refine ⟨h1, ?_⟩
  intro b
  rw [h1]
  exact fun hc => Except.noConfusion hc

/-- Witness for C8 at a request whose northern bound (100) exceeds the
dataset envelope (90). -/
theorem claim_c8_validation_first_witness :
    validate_download_request ERA5_time_bounds ERA5_spatial_bounds
        ERA5_variable_names ⟨⟨2010, 1, 1⟩, ⟨2010, 1, 31⟩⟩ ⟨100, 56, 1, 3⟩
        ["surface_pressure"] =
      Except.error "spatial bounds outside dataset envelope" ∧
    ERA5_download "download" ⟨⟨2010, 1, 1⟩, ⟨2010, 1, 31⟩⟩ ⟨100, 56, 1, 3⟩
        ["surface_pressure"] false (fun _ => none) (fun _ => 0) =
      ([], Except.error (DownloadError.validationError
        "spatial bounds outside dataset envelope")) :=
  ⟨by rfl,
    (claim_c8_validation_first "download" ⟨⟨2010, 1, 1⟩, ⟨2010, 1, 31⟩⟩
      ⟨100, 56, 1, 3⟩ ["surface_pressure"] false (fun _ => none) (fun _ => 0)
      "spatial bounds outside dataset envelope" (by rfl)).1⟩
